import Mathlib

/-!
Shallow embedding of `src/toolchain.rs` from the rustwide repository: the
`Toolchain` tagged union, its canonical identifier (`rustup_name`), the
install / add-component / add-target / uninstall dispatchers, the `cargo`
runnable value, the `Display` rendering, and the serde-derived
serialization/deserialization, together with theorems settling the frozen
claims about them.

Effectful operations are embedded in store-passing style: every operation
returns the list of external invocations it issues together with an
`Except` result, and takes a process-executor oracle assigning a
success/failure outcome to each invocation.
-/

/-- The sandboxed execution context in which external commands run.  The
toolchain code passes it through unchanged, so it is embedded as an opaque
tag value. -/
structure Workspace where
  id : Nat
deriving DecidableEq, Repr

/-- The binary addressed by an external invocation: `RUSTUP` is the
toolchain manager, `RUSTUP_TOOLCHAIN_INSTALL_MASTER` the CI-artifact
installer, and `ManagedByRustwide` a workspace-managed binary such as
`cargo` (from `Binary::ManagedByRustwide` in `cmd.rs`). -/
inductive Binary where
  | RUSTUP
  | RUSTUP_TOOLCHAIN_INSTALL_MASTER
  | ManagedByRustwide (name : String)
deriving DecidableEq, Repr

/-- One external invocation: a binary together with its ordered argument
vector. -/
structure Invocation where
  binary : Binary
  args : List String
deriving DecidableEq, Repr

/-- Outcome oracle for the process executor: `true` means the spawned
process exited with status zero, `false` covers a nonzero exit or a spawn
failure. -/
def ProcessExec : Type := Invocation → Bool

/-- Error classification used by `toolchain.rs`: `Unsupported` is the
`bail!` early failure (the operation is not defined for the variant) and
`CommandFailed` is the `with_context`-wrapped external-command failure,
carrying the context string. -/
inductive RunError where
  | Unsupported (message : String)
  | CommandFailed (context : String)
deriving DecidableEq, Repr

/-- Modelled from the spec: the process-execution collaborator
(`crate::cmd`, not under `src/`).  `Command::new` paired with `.args`
builds one invocation from a binary and an argument vector; `.run` issues
exactly that invocation and reports its exit status; `.with_context`
wraps a failure as an `ExternalCommandError` carrying the given context
string. -/
def runCommand (exec : ProcessExec) (bin : Binary) (args : List String) (context : String) :
    List Invocation × Except RunError Unit :=
  let inv : Invocation := { binary := bin, args := args }
  ([inv], if exec inv then Except.ok () else Except.error (RunError.CommandFailed context))

/-- Representation of a Rust compiler toolchain (`enum Toolchain` in
`toolchain.rs`): either a `Dist` toolchain available through rustup, or a
`CI` artifact identified by a merge-commit sha and an `alt` flag. -/
inductive Toolchain where
  | Dist (name : String)
  | CI (sha : String) (alt : Bool)
deriving DecidableEq, Repr

/-- `MAIN_TOOLCHAIN_NAME` constant from `toolchain.rs`. -/
def MAIN_TOOLCHAIN_NAME : String := "stable"

/-- `Toolchain::MAIN` constant from `toolchain.rs`. -/
def Toolchain.MAIN : Toolchain := Toolchain.Dist MAIN_TOOLCHAIN_NAME

/-- `Toolchain::rustup_name`: the canonical identifier of a toolchain. -/
def Toolchain.rustup_name : Toolchain → String
  | .Dist name => name
  | .CI sha false => sha
  | .CI sha true => sha ++ "-alt"

/-- Specification definition, written from the spec's words in section 3:
the canonical identifier maps `Dist {name}` to `name`, `CI {sha, alt:false}`
to `sha`, and `CI {sha, alt:true}` to `sha` concatenated with `-alt`.  Kept
separate from `Toolchain.rustup_name` so that the code's function can be
compared against the spec's. -/
def specCanonicalIdentifier : Toolchain → String
  | .Dist name => name
  | .CI sha false => sha
  | .CI sha true => sha ++ "-alt"

/-- `init_toolchain_from_dist` from `toolchain.rs`. -/
def init_toolchain_from_dist (exec : ProcessExec) (_w : Workspace) (toolchain : String) :
    List Invocation × Except RunError Unit :=
  runCommand exec Binary.RUSTUP ["toolchain", "install", toolchain]
    ("unable to install toolchain " ++ toolchain ++ " via rustup")

/-- `init_toolchain_from_ci` from `toolchain.rs`: the argument vector is
`[sha, "-c", "cargo"]` with `"--alt"` pushed when `alt` holds, and the
failure context is formatted from the bare `sha`. -/
def init_toolchain_from_ci (exec : ProcessExec) (_w : Workspace) (alt : Bool) (sha : String) :
    List Invocation × Except RunError Unit :=
  let args := [sha, "-c", "cargo"] ++ (if alt then ["--alt"] else [])
  runCommand exec Binary.RUSTUP_TOOLCHAIN_INSTALL_MASTER args
    ("unable to install toolchain " ++ sha ++ " via rustup-toolchain-install-master")

/-- `Toolchain::install`: dispatches per variant to
`init_toolchain_from_dist` or `init_toolchain_from_ci`. -/
def Toolchain.install (t : Toolchain) (exec : ProcessExec) (w : Workspace) :
    List Invocation × Except RunError Unit :=
  match t with
  | .Dist name => init_toolchain_from_dist exec w name
  | .CI sha alt => init_toolchain_from_ci exec w alt sha

/-- `Toolchain::add_rustup_thing`: bails with the unsupported-operation
message on the `CI` variant before any invocation, otherwise invokes the
toolchain manager with `[thing, "add", "--toolchain", <id>, name]`. -/
def Toolchain.add_rustup_thing (t : Toolchain) (exec : ProcessExec) (_w : Workspace)
    (thing name : String) : List Invocation × Except RunError Unit :=
  match t with
  | .CI _ _ =>
      ([], Except.error (RunError.Unsupported
        ("installing " ++ thing ++ " on CI toolchains is not supported yet")))
  | .Dist dname =>
      let toolchain_name := (Toolchain.Dist dname).rustup_name
      runCommand exec Binary.RUSTUP [thing, "add", "--toolchain", toolchain_name, name]
        ("unable to install " ++ thing ++ " " ++ name ++ " for toolchain " ++
          toolchain_name ++ " via rustup")

/-- `Toolchain::add_component`: delegates to `add_rustup_thing` with the
`"component"` label. -/
def Toolchain.add_component (t : Toolchain) (exec : ProcessExec) (w : Workspace)
    (name : String) : List Invocation × Except RunError Unit :=
  t.add_rustup_thing exec w "component" name

/-- `Toolchain::add_target`: delegates to `add_rustup_thing` with the
`"target"` label. -/
def Toolchain.add_target (t : Toolchain) (exec : ProcessExec) (w : Workspace)
    (name : String) : List Invocation × Except RunError Unit :=
  t.add_rustup_thing exec w "target" name

/-- `Toolchain::uninstall`: invokes the toolchain manager with
`["toolchain", "uninstall", <id>]`. -/
def Toolchain.uninstall (t : Toolchain) (exec : ProcessExec) (_w : Workspace) :
    List Invocation × Except RunError Unit :=
  let name := t.rustup_name
  runCommand exec Binary.RUSTUP ["toolchain", "uninstall", name]
    ("unable to uninstall toolchain " ++ name ++ " via rustup")

/-- Modelled from the spec: the command value of the process-execution
collaborator (`crate::cmd`, not under `src/`), reduced to the ordered
argument vector a runnable's `prepare_command` transforms; execution
starts from an empty argument vector to which `prepare_command` is applied
before any caller-supplied arguments. -/
structure Cmd where
  args : List String
deriving DecidableEq, Repr

/-- `Command::args` appends the given arguments to the command's vector. -/
def Cmd.addArgs (c : Cmd) (new : List String) : Cmd :=
  { args := c.args ++ new }

/-- The `CargoBin` value constructed by `Toolchain::cargo`: a runnable
holding a reference to the toolchain. -/
structure CargoBin where
  toolchain : Toolchain
deriving DecidableEq, Repr

/-- `Runnable::name` for `CargoBin`: the workspace-managed `cargo`
binary. -/
def CargoBin.name (_ : CargoBin) : Binary :=
  Binary.ManagedByRustwide "cargo"

/-- `Runnable::prepare_command` for `CargoBin`: appends the single
argument `"+<rustup_name>"`. -/
def CargoBin.prepare_command (b : CargoBin) (cmd : Cmd) : Cmd :=
  cmd.addArgs ["+" ++ b.toolchain.rustup_name]

/-- `Toolchain::cargo`: pure value construction; in store-passing style it
issues the empty list of invocations and returns the `CargoBin` value. -/
def Toolchain.cargo (t : Toolchain) : List Invocation × CargoBin :=
  ([], { toolchain := t })

/-- `Display for Toolchain`: `fmt` writes exactly `rustup_name`. -/
def Toolchain.toDisplayString (t : Toolchain) : String :=
  t.rustup_name

/-- Structured value produced and consumed by the serde-derived
serialization of `Toolchain` (internally tagged, kebab-case). -/
inductive Json where
  | str (s : String)
  | bool (b : Bool)
  | obj (fields : List (String × Json))

/-- Serde-derived serialization of `Toolchain`: an internally tagged
record with `type` discriminant `"dist"` (field `name`) or `"ci"` (fields
`sha` and `alt`), following the `rename_all = "kebab-case"`, `tag = "type"`
and `rename = "ci"` attributes in `toolchain.rs`. -/
def Toolchain.serialize : Toolchain → Json
  | .Dist name => Json.obj [("type", Json.str "dist"), ("name", Json.str name)]
  | .CI sha alt => Json.obj [("type", Json.str "ci"), ("sha", Json.str sha), ("alt", Json.bool alt)]

/-- First-match field lookup in a record, as the serde deserializer reads
fields. -/
def lookupField : List (String × Json) → String → Option Json
  | [], _ => none
  | (k, v) :: rest, key => if k = key then some v else lookupField rest key

/-- Serde-derived deserialization of `Toolchain`: reads the `type` tag,
dispatches on `"dist"` or `"ci"`, and rejects any other tag value. -/
def Toolchain.deserialize (j : Json) : Option Toolchain :=
  match j with
  | Json.obj fields =>
      match lookupField fields "type" with
      | some (Json.str tag) =>
          if tag = "dist" then
            match lookupField fields "name" with
            | some (Json.str n) => some (Toolchain.Dist n)
            | _ => none
          else if tag = "ci" then
            match lookupField fields "sha", lookupField fields "alt" with
            | some (Json.str sha), some (Json.bool alt) => some (Toolchain.CI sha alt)
            | _, _ => none
          else none
      | _ => none
  | _ => none

/-- The code's canonical identifier agrees with the spec's definition on
every toolchain (shared helper). -/
theorem rustup_name_eq_spec (t : Toolchain) :
    t.rustup_name = specCanonicalIdentifier t := by
  cases t with
  | Dist name => rfl
  | CI sha alt => cases alt <;> rfl

/-- C1: `canonicalIdentifier` (the code's `rustup_name`) is a total
function of the value mapping `Dist {name}` to `name`, `CI {sha, alt:false}`
to `sha`, and `CI {sha, alt:true}` to `sha ++ "-alt"`; in particular it
maps `Dist {name:"stable"}` to `"stable"`, `CI {sha:"abc123", alt:false}`
to `"abc123"` and `CI {sha:"abc123", alt:true}` to `"abc123-alt"`. -/
theorem c1_canonical_identifier :
    (∀ name : String, (Toolchain.Dist name).rustup_name = name)
    ∧ (∀ sha : String, (Toolchain.CI sha false).rustup_name = sha)
    ∧ (∀ sha : String, (Toolchain.CI sha true).rustup_name = sha ++ "-alt")
    ∧ (Toolchain.Dist "stable").rustup_name = "stable"
    ∧ (Toolchain.CI "abc123" false).rustup_name = "abc123"
    ∧ (Toolchain.CI "abc123" true).rustup_name = "abc123-alt" := by
  refine ⟨fun _ => rfl, fun _ => rfl, fun _ => rfl, rfl, rfl, rfl⟩

/-- C2: for every executor outcome and workspace, `install` on
`Dist {name}` issues exactly the one invocation
`RUSTUP ["toolchain", "install", name]`, and on `CI {sha, alt}` exactly the
one invocation `RUSTUP_TOOLCHAIN_INSTALL_MASTER [sha, "-c", "cargo"]` with
`"--alt"` appended exactly when `alt` is true. -/
theorem c2_install_invocations :
    ∀ (exec : ProcessExec) (w : Workspace),
      (∀ name : String,
        ((Toolchain.Dist name).install exec w).fst =
          [{ binary := Binary.RUSTUP, args := ["toolchain", "install", name] }])
      ∧ (∀ (sha : String) (alt : Bool),
        ((Toolchain.CI sha alt).install exec w).fst =
          [{ binary := Binary.RUSTUP_TOOLCHAIN_INSTALL_MASTER,
             args := [sha, "-c", "cargo"] ++ (if alt then ["--alt"] else []) }]) := by
  intro exec w
  exact ⟨fun _ => rfl, fun _ _ => rfl⟩

/-- C3: on any `CI` toolchain, for every workspace and name,
`add_component` and `add_target` fail with the unsupported-operation error
carrying the message `"installing <thing> on CI toolchains is not
supported yet"` and issue zero external invocations. -/
theorem c3_ci_unsupported :
    ∀ (exec : ProcessExec) (w : Workspace) (sha : String) (alt : Bool) (name : String),
      (Toolchain.CI sha alt).add_component exec w name =
        ([], Except.error (RunError.Unsupported
          "installing component on CI toolchains is not supported yet"))
      ∧ (Toolchain.CI sha alt).add_target exec w name =
        ([], Except.error (RunError.Unsupported
          "installing target on CI toolchains is not supported yet")) := by
  intro exec w sha alt name
  exact ⟨rfl, rfl⟩

/-- C4 counterexample: at `CI {sha:"abc123", alt:true}` with a failing
executor, the error context produced by `install` is formatted from the
bare sha `"abc123"`, which differs from the string built from the
canonical identifier `"abc123-alt"` that the claim requires. -/
theorem c4_counterexample :
    ((Toolchain.CI "abc123" true).install (fun _ => false) ⟨0⟩).snd =
      Except.error (RunError.CommandFailed
        "unable to install toolchain abc123 via rustup-toolchain-install-master")
    ∧ "unable to install toolchain abc123 via rustup-toolchain-install-master" ≠
      "unable to install toolchain " ++ (Toolchain.CI "abc123" true).rustup_name ++
        " via rustup-toolchain-install-master" := by
  exact ⟨rfl, by decide⟩

/-- C4 amended: when the external invocation made by `install` fails, the
error context is `"unable to install toolchain <name> via rustup"` for
`Dist {name}` and `"unable to install toolchain <sha> via
rustup-toolchain-install-master"` for `CI {sha, alt}` — the CI context uses
the bare sha, so for `alt:true` it does not carry the `-alt` suffix of the
canonical identifier. -/
theorem c4_install_error_context :
    (∀ (exec : ProcessExec) (w : Workspace) (name : String),
      exec { binary := Binary.RUSTUP, args := ["toolchain", "install", name] } = false →
      ((Toolchain.Dist name).install exec w).snd =
        Except.error (RunError.CommandFailed
          ("unable to install toolchain " ++ name ++ " via rustup")))
    ∧ (∀ (exec : ProcessExec) (w : Workspace) (sha : String) (alt : Bool),
      exec { binary := Binary.RUSTUP_TOOLCHAIN_INSTALL_MASTER,
             args := [sha, "-c", "cargo"] ++ (if alt then ["--alt"] else []) } = false →
      ((Toolchain.CI sha alt).install exec w).snd =
        Except.error (RunError.CommandFailed
          ("unable to install toolchain " ++ sha ++
            " via rustup-toolchain-install-master"))) := by
  constructor
  · intro exec w name h
    simp [Toolchain.install, init_toolchain_from_dist, runCommand, h]
  · intro exec w sha alt h
    have h' : exec { binary := Binary.RUSTUP_TOOLCHAIN_INSTALL_MASTER,
                     args := sha :: "-c" :: "cargo" :: (if alt then ["--alt"] else []) } =
        false := by
      simpa using h
    simp [Toolchain.install, init_toolchain_from_ci, runCommand, h']

/-- C4 witness: the amended context law evaluated at `Dist {name:"beta"}`
and at `CI {sha:"abc123", alt:true}` with the always-failing executor. -/
theorem c4_install_error_context_witness :
    ((Toolchain.Dist "beta").install (fun _ => false) ⟨0⟩).snd =
      Except.error (RunError.CommandFailed
        ("unable to install toolchain " ++ "beta" ++ " via rustup"))
    ∧ ((Toolchain.CI "abc123" true).install (fun _ => false) ⟨0⟩).snd =
      Except.error (RunError.CommandFailed
        ("unable to install toolchain " ++ "abc123" ++
          " via rustup-toolchain-install-master")) :=
  ⟨c4_install_error_context.1 (fun _ => false) ⟨0⟩ "beta" rfl,
   c4_install_error_context.2 (fun _ => false) ⟨0⟩ "abc123" true rfl⟩

/-- C5: serialization then deserialization is the identity on every
`Toolchain`; serialization produces the discriminated record with `type`
tag `"dist"` (field `name`) or `"ci"` (fields `sha`, `alt`); and
deserialization rejects every record whose `type` tag is neither `"dist"`
nor `"ci"`. -/
theorem c5_serde_roundtrip :
    (∀ t : Toolchain, Toolchain.deserialize (Toolchain.serialize t) = some t)
    ∧ (∀ name : String, Toolchain.serialize (Toolchain.Dist name) =
        Json.obj [("type", Json.str "dist"), ("name", Json.str name)])
    ∧ (∀ (sha : String) (alt : Bool), Toolchain.serialize (Toolchain.CI sha alt) =
        Json.obj [("type", Json.str "ci"), ("sha", Json.str sha), ("alt", Json.bool alt)])
    ∧ (∀ (fields : List (String × Json)) (tag : String),
        lookupField fields "type" = some (Json.str tag) → tag ≠ "dist" → tag ≠ "ci" →
        Toolchain.deserialize (Json.obj fields) = none) := by
  refine ⟨?_, fun _ => rfl, fun _ _ => rfl, ?_⟩
  · intro t
    cases t with
    | Dist name => rfl
    | CI sha alt => rfl
  · intro fields tag h hdist hci
    simp [Toolchain.deserialize, h, hdist, hci]

/-- C5 witness: the round-trip law at `CI {sha:"abc123", alt:true}` and
the rejection law at a record whose `type` tag is `"nightly"`. -/
theorem c5_serde_roundtrip_witness :
    Toolchain.deserialize (Toolchain.serialize (Toolchain.CI "abc123" true)) =
      some (Toolchain.CI "abc123" true)
    ∧ Toolchain.deserialize (Json.obj [("type", Json.str "nightly")]) = none :=
  ⟨c5_serde_roundtrip.1 (Toolchain.CI "abc123" true),
   c5_serde_roundtrip.2.2.2 [("type", Json.str "nightly")] "nightly" rfl
     (by decide) (by decide)⟩

/-- C6: on a `Dist` toolchain the shared routine behind
`add_component`/`add_target` issues exactly one toolchain-manager
invocation `[thing, "add", "--toolchain", <id>, name]` with `id` the
canonical identifier, and on failure returns the external-command error
with context `"unable to install <thing> <name> for toolchain <id> via
rustup"`; `add_component` and `add_target` delegate to it with the labels
`"component"` and `"target"`. -/
theorem c6_add_thing_dist :
    ∀ (exec : ProcessExec) (w : Workspace) (dname thing name : String),
      ((Toolchain.Dist dname).add_rustup_thing exec w thing name).fst =
        [{ binary := Binary.RUSTUP,
           args := [thing, "add", "--toolchain", (Toolchain.Dist dname).rustup_name, name] }]
      ∧ (exec { binary := Binary.RUSTUP,
                args := [thing, "add", "--toolchain", dname, name] } = false →
        ((Toolchain.Dist dname).add_rustup_thing exec w thing name).snd =
          Except.error (RunError.CommandFailed
            ("unable to install " ++ thing ++ " " ++ name ++ " for toolchain " ++
              (Toolchain.Dist dname).rustup_name ++ " via rustup")))
      ∧ (∀ t : Toolchain, t.add_component exec w name = t.add_rustup_thing exec w "component" name)
      ∧ (∀ t : Toolchain, t.add_target exec w name = t.add_rustup_thing exec w "target" name) := by
  intro exec w dname thing name
  refine ⟨rfl, ?_, fun _ => rfl, fun _ => rfl⟩
  intro h
  simp [Toolchain.add_rustup_thing, Toolchain.rustup_name, runCommand, h]

/-- C6 witness: the shared routine evaluated at `Dist {name:"beta"}`,
thing `"component"`, name `"rls"` with the always-failing executor. -/
theorem c6_add_thing_dist_witness :
    ((Toolchain.Dist "beta").add_rustup_thing (fun _ => false) ⟨0⟩ "component" "rls").fst =
      [{ binary := Binary.RUSTUP,
         args := ["component", "add", "--toolchain", (Toolchain.Dist "beta").rustup_name, "rls"] }]
    ∧ ((Toolchain.Dist "beta").add_rustup_thing (fun _ => false) ⟨0⟩ "component" "rls").snd =
      Except.error (RunError.CommandFailed
        ("unable to install " ++ "component" ++ " " ++ "rls" ++ " for toolchain " ++
          (Toolchain.Dist "beta").rustup_name ++ " via rustup")) :=
  ⟨(c6_add_thing_dist (fun _ => false) ⟨0⟩ "beta" "component" "rls").1,
   (c6_add_thing_dist (fun _ => false) ⟨0⟩ "beta" "component" "rls").2.1 rfl⟩

/-- C7: for every toolchain of either variant, `uninstall` issues exactly
one toolchain-manager invocation `["toolchain", "uninstall", <id>]` with
`id` the canonical identifier, and on failure returns the external-command
error with context `"unable to uninstall toolchain <id> via rustup"`. -/
theorem c7_uninstall :
    ∀ (exec : ProcessExec) (w : Workspace) (t : Toolchain),
      (t.uninstall exec w).fst =
        [{ binary := Binary.RUSTUP, args := ["toolchain", "uninstall", t.rustup_name] }]
      ∧ (exec { binary := Binary.RUSTUP,
                args := ["toolchain", "uninstall", t.rustup_name] } = false →
        (t.uninstall exec w).snd =
          Except.error (RunError.CommandFailed
            ("unable to uninstall toolchain " ++ t.rustup_name ++ " via rustup"))) := by
  intro exec w t
  refine ⟨rfl, ?_⟩
  intro h
  simp [Toolchain.uninstall, runCommand, h]

/-- C7 witness: `uninstall` evaluated at `CI {sha:"abc123", alt:true}`
with the always-failing executor. -/
theorem c7_uninstall_witness :
    ((Toolchain.CI "abc123" true).uninstall (fun _ => false) ⟨0⟩).fst =
      [{ binary := Binary.RUSTUP,
         args := ["toolchain", "uninstall", (Toolchain.CI "abc123" true).rustup_name] }]
    ∧ ((Toolchain.CI "abc123" true).uninstall (fun _ => false) ⟨0⟩).snd =
      Except.error (RunError.CommandFailed
        ("unable to uninstall toolchain " ++ (Toolchain.CI "abc123" true).rustup_name ++
          " via rustup")) :=
  ⟨(c7_uninstall (fun _ => false) ⟨0⟩ (Toolchain.CI "abc123" true)).1,
   (c7_uninstall (fun _ => false) ⟨0⟩ (Toolchain.CI "abc123" true)).2 rfl⟩

/-- C8: constructing the cargo runnable issues zero invocations, and the
invocation it describes, prepared for execution from the empty argument
vector, has `"+" ++ canonicalIdentifier(t)` as its first (and only)
initial argument. -/
theorem c8_cargo_runnable :
    ∀ t : Toolchain,
      (t.cargo).fst = []
      ∧ ((t.cargo).snd.prepare_command { args := [] }).args = ["+" ++ t.rustup_name]
      ∧ (((t.cargo).snd.prepare_command { args := [] }).args.head? =
          some ("+" ++ t.rustup_name)) := by
  intro t
  exact ⟨rfl, rfl, rfl⟩

/-- C9: the displayed text form of every toolchain equals the canonical
identifier, as the spec defines it. -/
theorem c9_display_eq_canonical :
    ∀ t : Toolchain,
      t.toDisplayString = t.rustup_name ∧ t.toDisplayString = specCanonicalIdentifier t := by
  intro t
  exact ⟨rfl, rustup_name_eq_spec t⟩

/-- C10: the canonical identifier is not injective across variants: for
every `s`, the distinct values `Dist {s}` and `CI {s, alt:false}` share an
identifier, as do `Dist {s ++ "-alt"}` and `CI {s, alt:true}`, and
`uninstall` and the cargo-runnable prefix address both members of each
pair with identical invocations. -/
theorem c10_identifier_collision :
    ∀ (s : String) (exec : ProcessExec) (w : Workspace),
      (Toolchain.Dist s ≠ Toolchain.CI s false
        ∧ (Toolchain.Dist s).rustup_name = (Toolchain.CI s false).rustup_name)
      ∧ (Toolchain.Dist (s ++ "-alt") ≠ Toolchain.CI s true
        ∧ (Toolchain.Dist (s ++ "-alt")).rustup_name = (Toolchain.CI s true).rustup_name)
      ∧ ((Toolchain.Dist s).uninstall exec w).fst = ((Toolchain.CI s false).uninstall exec w).fst
      ∧ ((Toolchain.Dist (s ++ "-alt")).uninstall exec w).fst =
          ((Toolchain.CI s true).uninstall exec w).fst
      ∧ ((Toolchain.Dist s).cargo).snd.prepare_command { args := [] } =
          ((Toolchain.CI s false).cargo).snd.prepare_command { args := [] }
      ∧ ((Toolchain.Dist (s ++ "-alt")).cargo).snd.prepare_command { args := [] } =
          ((Toolchain.CI s true).cargo).snd.prepare_command { args := [] } := by
  intro s exec w
  refine ⟨⟨fun h => Toolchain.noConfusion h, rfl⟩,
          ⟨fun h => Toolchain.noConfusion h, rfl⟩, rfl, rfl, rfl, rfl⟩

/-- C10 witness: the collision evaluated at `s = "abc123"` with a concrete
executor and workspace. -/
theorem c10_identifier_collision_witness :
    (Toolchain.Dist "abc123" ≠ Toolchain.CI "abc123" false
      ∧ (Toolchain.Dist "abc123").rustup_name = (Toolchain.CI "abc123" false).rustup_name)
    ∧ (Toolchain.Dist ("abc123" ++ "-alt") ≠ Toolchain.CI "abc123" true
      ∧ (Toolchain.Dist ("abc123" ++ "-alt")).rustup_name =
          (Toolchain.CI "abc123" true).rustup_name)
    ∧ ((Toolchain.Dist "abc123").uninstall (fun _ => true) ⟨0⟩).fst =
        ((Toolchain.CI "abc123" false).uninstall (fun _ => true) ⟨0⟩).fst
    ∧ ((Toolchain.Dist ("abc123" ++ "-alt")).uninstall (fun _ => true) ⟨0⟩).fst =
        ((Toolchain.CI "abc123" true).uninstall (fun _ => true) ⟨0⟩).fst
    ∧ ((Toolchain.Dist "abc123").cargo).snd.prepare_command { args := [] } =
        ((Toolchain.CI "abc123" false).cargo).snd.prepare_command { args := [] }
    ∧ ((Toolchain.Dist ("abc123" ++ "-alt")).cargo).snd.prepare_command { args := [] } =
        ((Toolchain.CI "abc123" true).cargo).snd.prepare_command { args := [] } :=
  c10_identifier_collision "abc123" (fun _ => true) ⟨0⟩
